import Mathlib

/-!
Shallow embedding of `src/crates/nsis-download/src/lib.rs` (`download_file`
and the copy loop it drives).  The UI calls (`CreateWindowExW`,
`SendMessageW`, `SetWindowTextW`, ...) performed around and inside the
progress callback act on an external window handle and have no effect on
the download logic; they are omitted.  The observable behaviour of the
callback closure that matters to the claims is the sequence of
`on_chunk(progress)` invocations, which we record as a list of byte
counts.

External library behaviour is modelled faithfully from its documented
semantics:
  * `ureq::get(url).call()` yields `Ok(response)` or
    `Err(Status(code, _))` / `Err(Transport(_))`; we take that outcome as
    an input (`FetchResult`).
  * `progress_streams::ProgressReader::read` calls the inner reader and,
    on `Ok(n)`, invokes the callback with `n` (including `n = 0` at
    end-of-stream) before returning.
  * `std::io::copy` loops: read into a buffer; `Ok(0)` ends the copy with
    success; `Ok(n)` is followed by `write_all` of those `n` bytes; any
    read or write error aborts the copy with that error.
  * `std::fs::create_dir_all` returns `Ok(())` immediately when its
    argument is the empty path.
  * `Path::parent`, on the crate's Windows-only target (it imports
    `windows_sys` unconditionally): both `\` and `/` separate
    components, and a leading disk prefix such as `C:` is a component of
    its own.  `parent` returns `None` for the empty path, for a bare
    root (`"/"`, `"\"`), and for a bare or rooted disk prefix (`"C:"`,
    `"C:\"`); `Some("")` for a bare file name; the disk prefix alone for
    a prefix-relative name (`"C:f"`); and otherwise everything before
    the last separator (keeping that separator when nothing precedes
    it, as in `"/a"` or `"C:\a"`).  Modelled for paths without trailing
    or repeated separators and without UNC/verbatim prefixes, the forms
    exercised by the claims.
-/

namespace NsisDownload

/-- One interaction of `io::copy` with the network reader: either a
successful read delivering `bytes` (an empty list models the `Ok(0)`
end-of-stream read) or a read error (`ureq`'s body reader failing). -/
inductive ReadEvent where
  | chunk (bytes : List Nat)
  | rerr
deriving DecidableEq, Repr

/-- Result of the `io::copy(&mut reader, &mut file)` call at line 188 of
`lib.rs`, with `reader` the `ProgressReader` wrapper: whether the copy
succeeded, the chunks successfully written to the file in order, and the
sequence of progress-callback invocations (each entry the `progress`
argument of one call of the closure passed to `ProgressReader::new`). -/
structure CopyResult where
  ok : Bool
  writes : List (List Nat)
  callbacks : List Nat
deriving DecidableEq, Repr

/-- Total number of bytes successfully written to the destination file. -/
def CopyResult.written (r : CopyResult) : Nat :=
  (r.writes.map List.length).sum

/-- The bytes the destination file holds after the copy (the file was
truncated to empty before the copy started). -/
def CopyResult.fileBytes (r : CopyResult) : List Nat :=
  r.writes.flatten

/-- `io::copy` over the `ProgressReader`-wrapped response body.
`events` is the behaviour of the underlying reader; once the list is
exhausted the reader is at end-of-stream (every further read returns
`Ok(0)`).  `wf` models the destination file: `some k` means the
`(k+1)`-th `write_all` fails (earlier ones succeed), `none` means every
write succeeds.

Per chunk the order is: inner read; on success the `ProgressReader`
callback fires with the byte count (also with `0` at end-of-stream);
only then does `io::copy` write the chunk.  A read error propagates
without a callback; a write error aborts after the callback already
fired for that chunk. -/
def io_copy : List ReadEvent → Option Nat → CopyResult
  | [], _ => { ok := true, writes := [], callbacks := [0] }
  | ReadEvent.rerr :: _, _ => { ok := false, writes := [], callbacks := [] }
  | ReadEvent.chunk bs :: rest, wf =>
    if bs.isEmpty then { ok := true, writes := [], callbacks := [0] }
    else if wf = some 0 then { ok := false, writes := [], callbacks := [bs.length] }
    else
      let r := io_copy rest (wf.map (fun k => k - 1))
      { ok := r.ok, writes := bs :: r.writes, callbacks := bs.length :: r.callbacks }

/-- Rust's `str::parse::<u128>()`: an optional leading `+`, then at least
one ASCII digit, and the value must fit in 128 bits; anything else is a
parse error (`none`). -/
def parseU128 (s : String) : Option Nat :=
  let ds := if s.data.head? = some '+' then s.data.drop 1 else s.data
  if ds = [] then none
  else if ds.all Char.isDigit then
    let v := ds.foldl (fun acc c => acc * 10 + (c.toNat - 48)) 0
    if v < 2 ^ 128 then some v else none
  else none

/-- Lines 116-120 of `lib.rs`:
`response.header("Content-Length").unwrap_or("0").parse::<u128>()`.
A missing header is replaced by the string `"0"` before parsing; the
result is `none` exactly when the subsequent `.unwrap()` panics. -/
def totalOf (hdr : Option String) : Option Nat :=
  parseU128 (hdr.getD "0")

/-- A Windows path separator: the target accepts both `\` and `/`. -/
def isSep (c : Char) : Bool :=
  c == '\\' || c == '/'

/-- An ASCII letter, as accepted for a Windows disk-prefix drive. -/
def isDriveLetter (c : Char) : Bool :=
  ('A' ≤ c && c ≤ 'Z') || ('a' ≤ c && c ≤ 'z')

/-- Windows disk-prefix parsing (`std::path` `Prefix::Disk`): a path
beginning with an ASCII letter followed by `:` starts with that
two-character disk prefix; anything else has none (UNC and verbatim
prefixes are outside the modelled subset). -/
def splitDrive (l : List Char) : Option (List Char × List Char) :=
  match l with
  | c :: d :: rest =>
    if isDriveLetter c && d == ':' then some ([c, d], rest) else none
  | _ => none

/-- `Path::parent` after the optional disk prefix `pfx` has been split
off, leaving `rest`: `none` when nothing (or only a root separator)
follows the prefix; the prefix (or `""`) alone for a bare name;
otherwise the prefix plus everything before the last separator, the
separator included when nothing precedes it. -/
def rustParentAux (pfx rest : List Char) : Option String :=
  if rest = [] then none
  else if rest.length == 1 && isSep (rest.headD ' ') then none
  else if rest.any isSep then
    let pre := ((rest.reverse.dropWhile (fun c => !isSep c)).drop 1).reverse
    if pre = [] then some (String.mk (pfx ++ [rest.headD ' ']))
    else some (String.mk (pfx ++ pre))
  else if pfx = [] then some "" else some (String.mk pfx)

/-- `std::path::Path::parent` on the crate's Windows-only target, for
paths without trailing or repeated separators and without UNC/verbatim
prefixes: `none` for `""`, `"/"`, `"\"`, `"C:"` and `"C:\"`; `some ""`
for a bare file name; `some "C:"` for `"C:f"`; otherwise everything
before the last separator (`some "/"` for `"/a"`, `some "a"` for
`"a\b"` or `"a/b"`). -/
def rustParent (p : String) : Option String :=
  match splitDrive p.data with
  | some (pfx, rest) => rustParentAux pfx rest
  | none => rustParentAux [] p.data

/-- Line 179 of `lib.rs`: the argument handed to `fs::create_dir_all`,
namely `path.parent().unwrap_or_else(|| Path::new("."))`. -/
def dirArgOf (p : String) : String :=
  (rustParent p).getD "."

/-- Outcome of `ureq::get(url).call()` at line 106 of `lib.rs`. -/
inductive FetchResult where
  | status (code : Nat)
  | transport
  | ok (contentLength : Option String) (events : List ReadEvent)
deriving DecidableEq, Repr

/-- A filesystem operation attempted by `download_file`, in order. -/
inductive FsOp where
  | createDirAll (p : String)
  | openTruncate (p : String)
  | writeChunk (bytes : List Nat)
deriving DecidableEq, Repr

/-- The local environment of one `download_file` run: whether
`fs::create_dir_all` on a non-empty directory argument fails, whether
opening the destination fails, which write (if any) fails, and the
destination file's content before the call (`none`: no such file). -/
structure FsEnv where
  createDirFails : Bool
  openFails : Bool
  writeFailIdx : Option Nat
  prior : Option (List Nat)
deriving DecidableEq, Repr

/-- How one `download_file` run ends: a returned `i32`, or a Rust panic
from one of the `.unwrap()` calls. -/
inductive RunOutcome where
  | panicked
  | returned (code : Int)
deriving DecidableEq, Repr

/-- Observable result of a `download_file` run: how it ended, the
destination file afterwards (`none`: never opened, the prior state
persists), the filesystem operations performed, and the progress
callback invocations. -/
structure RunResult where
  outcome : RunOutcome
  file : Option (List Nat)
  ops : List FsOp
  callbacks : List Nat
deriving DecidableEq, Repr

/-- `download_file` (lines 38-190 of `lib.rs`), with the fetch outcome
and the filesystem behaviour as explicit inputs.  Steps, in source
order: map a fetch error to `code as i32` or `499`; read the
Content-Length header with default `"0"` and `parse::<u128>().unwrap()`
(panic on parse failure); `fs::create_dir_all(parent-or-dot).unwrap()`
(`create_dir_all` succeeds trivially on the empty path; otherwise a
failure panics); open the destination with create+write+truncate,
`.unwrap()` (failure panics); run `io::copy`; return
`i32::from(res.is_err())`. -/
def download_file (fetch : FetchResult) (env : FsEnv) (path : String) : RunResult :=
  match fetch with
  | FetchResult.status c =>
    { outcome := RunOutcome.returned (c : Int), file := env.prior, ops := [], callbacks := [] }
  | FetchResult.transport =>
    { outcome := RunOutcome.returned 499, file := env.prior, ops := [], callbacks := [] }
  | FetchResult.ok hdr events =>
    match totalOf hdr with
    | none =>
      { outcome := RunOutcome.panicked, file := env.prior, ops := [], callbacks := [] }
    | some _ =>
      let dirArg := dirArgOf path
      if env.createDirFails && !(dirArg == "") then
        { outcome := RunOutcome.panicked, file := env.prior,
          ops := [FsOp.createDirAll dirArg], callbacks := [] }
      else if env.openFails then
        { outcome := RunOutcome.panicked, file := env.prior,
          ops := [FsOp.createDirAll dirArg, FsOp.openTruncate path], callbacks := [] }
      else
        let r := io_copy events env.writeFailIdx
        { outcome := RunOutcome.returned (if r.ok then 0 else 1),
          file := some r.fileBytes,
          ops := FsOp.createDirAll dirArg :: FsOp.openTruncate path
                   :: r.writes.map FsOp.writeChunk,
          callbacks := r.callbacks }

end NsisDownload

namespace NsisDownload

/-- Prefix sums of a list of naturals are bounded by the full sum. -/
lemma sum_take_le (l : List Nat) : ∀ n : Nat, (l.take n).sum ≤ l.sum := by
  induction l with
  | nil => intro n; simp
  | cons a l ih =>
    intro n
    cases n with
    | zero => simp
    | succ n => simpa using Nat.add_le_add_left (ih n) a

/-- Prefix sums of a list of naturals are monotone in the prefix length. -/
lemma sum_take_mono (l : List Nat) {n m : Nat} (h : n ≤ m) :
    (l.take n).sum ≤ (l.take m).sum := by
  have hnm : l.take n = (l.take m).take n := by
    rw [List.take_take, Nat.min_eq_left h]
  rw [hnm]
  exact sum_take_le (l.take m) n

/-- Bytes written never exceed the callback total: the callback for a
chunk fires before that chunk's write, so every written chunk was
already reported. -/
lemma io_copy_written_le_sum (ev : List ReadEvent) (wf : Option Nat) :
    (io_copy ev wf).written ≤ (io_copy ev wf).callbacks.sum := by
  induction ev generalizing wf with
  | nil => simp [io_copy, CopyResult.written]
  | cons e rest ih =>
    cases e with
    | rerr => simp [io_copy, CopyResult.written]
    | chunk bs =>
      by_cases hb : bs.isEmpty
      · simp [io_copy, hb, CopyResult.written]
      · by_cases hw : wf = some 0
        · simp [io_copy, hb, hw, CopyResult.written]
        · simp only [io_copy, hb, hw, if_false, Bool.false_eq_true]
          simp only [CopyResult.written, List.map_cons, List.sum_cons]
          exact Nat.add_le_add_left (ih (wf.map (fun k => k - 1))) bs.length

/-- When the copy succeeds, the callback total equals the bytes written. -/
lemma io_copy_ok_sum_eq (ev : List ReadEvent) (wf : Option Nat)
    (h : (io_copy ev wf).ok = true) :
    (io_copy ev wf).callbacks.sum = (io_copy ev wf).written := by
  induction ev generalizing wf with
  | nil => simp [io_copy, CopyResult.written]
  | cons e rest ih =>
    cases e with
    | rerr => simp [io_copy] at h
    | chunk bs =>
      by_cases hb : bs.isEmpty
      · simp [io_copy, hb, CopyResult.written]
      · by_cases hw : wf = some 0
        · rw [io_copy] at h
          simp [hb, hw] at h
        · rw [io_copy] at h ⊢
          simp only [hb, hw, if_false, Bool.false_eq_true] at h ⊢
          simp only [CopyResult.written, List.map_cons, List.sum_cons] at ih ⊢
          have := ih (wf.map (fun k => k - 1)) h
          simp only [CopyResult.written] at this
          omega

/-- The file content's length is the number of bytes written. -/
lemma io_copy_fileBytes_length (ev : List ReadEvent) (wf : Option Nat) :
    (io_copy ev wf).fileBytes.length = (io_copy ev wf).written := by
  simp [CopyResult.fileBytes, CopyResult.written, List.length_flatten]

/-- The copy aborts at the first read error: events after it are never
consumed, so they do not affect the result. -/
lemma io_copy_rerr_frame (pre : List ReadEvent) (wf : Option Nat)
    (post post' : List ReadEvent) :
    io_copy (pre ++ ReadEvent.rerr :: post) wf
      = io_copy (pre ++ ReadEvent.rerr :: post') wf := by
  induction pre generalizing wf with
  | nil => rfl
  | cons e rest ih =>
    cases e with
    | rerr => rfl
    | chunk bs =>
      by_cases hb : bs.isEmpty
      · simp [io_copy, hb]
      · by_cases hw : wf = some 0
        · simp [io_copy, hb, hw]
        · simp only [List.cons_append, io_copy, hb, hw, if_false, Bool.false_eq_true,
            List.append_eq]
          rw [ih (wf.map (fun k => k - 1))]

end NsisDownload

namespace NsisDownload

/-- Claim C1, counterexample: a local I/O failure after a successful
fetch (here: `fs::create_dir_all("a")` failing for destination `"a/b"`)
does not produce the returned code 1 — `download_file` panics on the
`.unwrap()` instead of returning. -/
theorem C1_counterexample :
    (download_file (FetchResult.ok none []) ⟨true, false, none, none⟩ "a/b").outcome
      = RunOutcome.panicked ∧
    (download_file (FetchResult.ok none []) ⟨true, false, none, none⟩ "a/b").outcome
      ≠ RunOutcome.returned 1 := by
  exact ⟨rfl, by decide⟩

/-- Claim C1 (amended): on fetch and copy success the returned code is
0; on `ureq::Error::Status(code, _)` it is that exact HTTP status; on
`ureq::Error::Transport` it is the sentinel 499; when the `io::copy`
step fails after a successful fetch (and the directory-creation and
file-open steps succeeded) the returned code is 1; and 0, 1 and 499 are
pairwise distinct.  Failures of directory creation or file open
instead panic, per the counterexample above. -/
theorem C1_status_code_mapping (env : FsEnv) (p : String) (hdr : Option String)
    (events : List ReadEvent) (c t : Nat)
    (hparse : totalOf hdr = some t)
    (hdir : (env.createDirFails && !(dirArgOf p == "")) = false)
    (hopen : env.openFails = false) :
    (download_file (FetchResult.status c) env p).outcome = RunOutcome.returned (c : Int) ∧
    (download_file FetchResult.transport env p).outcome = RunOutcome.returned 499 ∧
    ((io_copy events env.writeFailIdx).ok = true →
      (download_file (FetchResult.ok hdr events) env p).outcome = RunOutcome.returned 0) ∧
    ((io_copy events env.writeFailIdx).ok = false →
      (download_file (FetchResult.ok hdr events) env p).outcome = RunOutcome.returned 1) ∧
    (0 : Int) ≠ 1 ∧ (0 : Int) ≠ 499 ∧ (1 : Int) ≠ 499 := by
  refine ⟨rfl, rfl, ?_, ?_, by decide, by decide, by decide⟩
  · intro h
    simp [download_file, hparse, hdir, hopen, h]
  · intro h
    simp [download_file, hparse, hdir, hopen, h]

/-- Witness for C1 at concrete inputs: HTTP 404 maps to code 404, a
transport failure to 499, a clean one-chunk download to 0 and a download
whose only write fails to 1. -/
theorem C1_status_code_mapping_witness :
    (download_file (FetchResult.status 404) ⟨false, false, none, none⟩ "a/b").outcome
      = RunOutcome.returned ((404 : Nat) : Int) ∧
    (download_file FetchResult.transport ⟨false, false, none, none⟩ "a/b").outcome
      = RunOutcome.returned 499 ∧
    (download_file (FetchResult.ok none [ReadEvent.chunk [9]])
        ⟨false, false, none, none⟩ "a/b").outcome = RunOutcome.returned 0 ∧
    (download_file (FetchResult.ok none [ReadEvent.chunk [9]])
        ⟨false, false, some 0, none⟩ "a/b").outcome = RunOutcome.returned 1 := by
  have h1 := C1_status_code_mapping ⟨false, false, none, none⟩ "a/b" none
    [ReadEvent.chunk [9]] 404 0 rfl rfl rfl
  have h2 := C1_status_code_mapping ⟨false, false, some 0, none⟩ "a/b" none
    [ReadEvent.chunk [9]] 404 0 rfl rfl rfl
  exact ⟨h1.1, h1.2.1, h1.2.2.1 rfl, h2.2.2.2.1 rfl⟩

/-- Claim C2: with a malformed `Content-Length` header the code panics
(the spec's intended behaviour is `total_size = None` without panic),
and with the header missing it silently uses 0 instead of `None` — the
documented-intent contract is violated by the code.  The last conjunct
records that an otherwise identical run returns normally, isolating the
header handling as the cause. -/
theorem C2_header_handling :
    totalOf (some "abc") = none ∧
    (download_file (FetchResult.ok (some "abc") [ReadEvent.chunk [1]])
        ⟨false, false, none, none⟩ "f").outcome = RunOutcome.panicked ∧
    totalOf none = some 0 ∧
    (download_file (FetchResult.ok none [ReadEvent.chunk [1]])
        ⟨false, false, none, none⟩ "f").outcome = RunOutcome.returned 0 :=
  ⟨rfl, rfl, rfl, rfl⟩

/-- Claim C3, counterexample: with a single 4-byte chunk whose write
fails, the progress callback has already fired with 4 bytes although no
byte was ever handed to the sink — the callback precedes the write, so
"written fully first, then callback" is false. -/
theorem C3_counterexample :
    (io_copy [ReadEvent.chunk [1, 2, 3, 4]] (some 0)).callbacks = [4] ∧
    (io_copy [ReadEvent.chunk [1, 2, 3, 4]] (some 0)).writes = [] ∧
    ¬ ((io_copy [ReadEvent.chunk [1, 2, 3, 4]] (some 0)).callbacks.sum
        ≤ (io_copy [ReadEvent.chunk [1, 2, 3, 4]] (some 0)).written) := by
  refine ⟨rfl, rfl, ?_⟩
  decide

/-- Claim C3 (amended): for each chunk the callback fires with exactly
that chunk's byte count after the chunk is read from the source and
before it is written to the sink.  Hence the bytes written never exceed
the callback total, the two agree whenever the copy succeeds, and a
nonempty chunk whose write fails has already been reported (its length
is the last callback entry) while nothing of it reaches the sink. -/
theorem C3_callback_before_write (events : List ReadEvent) (wf : Option Nat) :
    (io_copy events wf).written ≤ (io_copy events wf).callbacks.sum ∧
    ((io_copy events wf).ok = true →
      (io_copy events wf).callbacks.sum = (io_copy events wf).written) ∧
    (∀ bs rest, bs ≠ ([] : List Nat) →
      (io_copy (ReadEvent.chunk bs :: rest) (some 0)).callbacks = [bs.length] ∧
      (io_copy (ReadEvent.chunk bs :: rest) (some 0)).writes = []) := by
  refine ⟨io_copy_written_le_sum events wf, io_copy_ok_sum_eq events wf, ?_⟩
  intro bs rest hbs
  cases bs with
  | nil => exact absurd rfl hbs
  | cons a l => exact ⟨rfl, rfl⟩

/-- Witness for C3 at concrete inputs: a clean two-chunk copy has write
total 3 equal to the callback total, and a failing write of `[7, 7]` is
reported by the callback though never written. -/
theorem C3_callback_before_write_witness :
    (io_copy [ReadEvent.chunk [1], ReadEvent.chunk [2, 3]] none).written
      ≤ (io_copy [ReadEvent.chunk [1], ReadEvent.chunk [2, 3]] none).callbacks.sum ∧
    (io_copy [ReadEvent.chunk [7, 7]] (some 0)).callbacks = [2] := by
  have h := C3_callback_before_write [ReadEvent.chunk [1], ReadEvent.chunk [2, 3]] none
  exact ⟨h.1, (h.2.2 [7, 7] [] (by decide)).1⟩

/-- Claim C4, counterexample: a successful download whose
`Content-Length` header declares 1024 bytes but whose body delivers only
2 — the code never compares the two, so the callback total (2) differs
from the declared total size (1024) even though the transfer succeeded. -/
theorem C4_counterexample :
    (download_file (FetchResult.ok (some "1024") [ReadEvent.chunk [1, 2]])
        ⟨false, false, none, none⟩ "f").outcome = RunOutcome.returned 0 ∧
    (download_file (FetchResult.ok (some "1024") [ReadEvent.chunk [1, 2]])
        ⟨false, false, none, none⟩ "f").callbacks.sum = 2 ∧
    totalOf (some "1024") = some 1024 ∧
    (2 : Nat) ≠ 1024 := by
  exact ⟨rfl, rfl, rfl, by decide⟩

/-- Claim C4 (amended): the accumulated byte counter — the prefix sums
of the callback sequence — is non-decreasing, and on success the total
reported through the callbacks equals both the number of bytes written
to the destination and the length of the file content.  Equality with
the declared total size holds only when the body actually delivers that
many bytes; the code performs no such check (see the counterexample). -/
theorem C4_progress_accounting (events : List ReadEvent) (wf : Option Nat)
    (n m : Nat) (h : n ≤ m) :
    ((io_copy events wf).callbacks.take n).sum
      ≤ ((io_copy events wf).callbacks.take m).sum ∧
    ((io_copy events wf).ok = true →
      (io_copy events wf).callbacks.sum = (io_copy events wf).written ∧
      (io_copy events wf).callbacks.sum = (io_copy events wf).fileBytes.length) := by
  refine ⟨sum_take_mono _ h, fun hok => ?_⟩
  have h1 := io_copy_ok_sum_eq events wf hok
  have h2 := io_copy_fileBytes_length events wf
  exact ⟨h1, by rw [h1, h2]⟩

/-- Witness for C4 at concrete inputs: on the two-chunk stream the
prefix sums at 1 and 2 are ordered, and the success case gives callback
total = written = file length. -/
theorem C4_progress_accounting_witness :
    ((io_copy [ReadEvent.chunk [1], ReadEvent.chunk [2, 3]] none).callbacks.take 1).sum
      ≤ ((io_copy [ReadEvent.chunk [1], ReadEvent.chunk [2, 3]] none).callbacks.take 2).sum ∧
    (io_copy [ReadEvent.chunk [1], ReadEvent.chunk [2, 3]] none).callbacks.sum
      = (io_copy [ReadEvent.chunk [1], ReadEvent.chunk [2, 3]] none).written := by
  have h := C4_progress_accounting [ReadEvent.chunk [1], ReadEvent.chunk [2, 3]] none
    1 2 (by decide)
  exact ⟨h.1, (h.2 rfl).1⟩

/-- Claim C5: when the fetch fails — a non-2xx HTTP status or a
transport failure — `download_file` returns before touching the
filesystem: no operation is performed, the destination keeps its prior
state, and no progress callback ever fires. -/
theorem C5_fetch_failure_fs_untouched (env : FsEnv) (p : String) (c : Nat) :
    (download_file (FetchResult.status c) env p).ops = [] ∧
    (download_file (FetchResult.status c) env p).file = env.prior ∧
    (download_file (FetchResult.status c) env p).callbacks = [] ∧
    (download_file FetchResult.transport env p).ops = [] ∧
    (download_file FetchResult.transport env p).file = env.prior ∧
    (download_file FetchResult.transport env p).callbacks = [] :=
  ⟨rfl, rfl, rfl, rfl, rfl, rfl⟩

end NsisDownload

namespace NsisDownload

/-- Claim C6: when the copy step fails — a read error from the body or
a write error to the file — `download_file` returns 1, the partially
written destination is left on disk with exactly the bytes written so
far (it is not deleted), and the copy aborts at the first read error:
events after it are never consumed. -/
theorem C6_copy_error_aborts (env : FsEnv) (p : String) (hdr : Option String)
    (events : List ReadEvent) (t : Nat)
    (hparse : totalOf hdr = some t)
    (hdir : (env.createDirFails && !(dirArgOf p == "")) = false)
    (hopen : env.openFails = false)
    (hfail : (io_copy events env.writeFailIdx).ok = false) :
    (download_file (FetchResult.ok hdr events) env p).outcome = RunOutcome.returned 1 ∧
    (download_file (FetchResult.ok hdr events) env p).file
      = some (io_copy events env.writeFailIdx).fileBytes ∧
    (∀ pre post post' (w : Option Nat),
      io_copy (pre ++ ReadEvent.rerr :: post) w
        = io_copy (pre ++ ReadEvent.rerr :: post') w) := by
  refine ⟨?_, ?_, fun pre post post' w => io_copy_rerr_frame pre w post post'⟩
  · simp [download_file, hparse, hdir, hopen, hfail]
  · simp [download_file, hparse, hdir, hopen]

/-- Witness for C6 at a concrete input: one 2-byte chunk is written,
then the body reader errors; the run returns 1 and leaves the two bytes
on disk. -/
theorem C6_copy_error_aborts_witness :
    (download_file (FetchResult.ok none [ReadEvent.chunk [4, 5], ReadEvent.rerr])
        ⟨false, false, none, none⟩ "a/b").outcome = RunOutcome.returned 1 ∧
    (download_file (FetchResult.ok none [ReadEvent.chunk [4, 5], ReadEvent.rerr])
        ⟨false, false, none, none⟩ "a/b").file
      = some (io_copy [ReadEvent.chunk [4, 5], ReadEvent.rerr] none).fileBytes := by
  have h := C6_copy_error_aborts ⟨false, false, none, none⟩ "a/b" none
    [ReadEvent.chunk [4, 5], ReadEvent.rerr] 0 rfl rfl rfl rfl
  exact ⟨h.1, h.2.1⟩

/-- Claim C7, counterexample: a failure to open/create the destination
file is not reported as the I/O-failure outcome (code 1) — the
`.unwrap()` at line 186 panics instead. -/
theorem C7_counterexample :
    (download_file (FetchResult.ok none []) ⟨false, true, none, none⟩ "x/y").outcome
      = RunOutcome.panicked ∧
    (download_file (FetchResult.ok none []) ⟨false, true, none, none⟩ "x/y").outcome
      ≠ RunOutcome.returned 1 := by
  exact ⟨rfl, by decide⟩

/-- Claim C7 (amended): before writing, `fs::create_dir_all` is invoked
on the destination's parent (or `"."` when the path has no parent),
before the destination file is opened and before any write; but its
failure on a non-empty directory argument, and likewise a failure to
open/create the destination file, cause a panic via `.unwrap()` rather
than the returned I/O-failure code. -/
theorem C7_dir_open_failures (env : FsEnv) (p : String) (hdr : Option String)
    (events : List ReadEvent) (t : Nat)
    (hparse : totalOf hdr = some t) :
    (env.createDirFails = true → dirArgOf p ≠ "" →
      (download_file (FetchResult.ok hdr events) env p).outcome = RunOutcome.panicked ∧
      (download_file (FetchResult.ok hdr events) env p).ops
        = [FsOp.createDirAll (dirArgOf p)]) ∧
    (env.createDirFails = false → env.openFails = true →
      (download_file (FetchResult.ok hdr events) env p).outcome = RunOutcome.panicked ∧
      (download_file (FetchResult.ok hdr events) env p).ops
        = [FsOp.createDirAll (dirArgOf p), FsOp.openTruncate p]) ∧
    (env.createDirFails = false → env.openFails = false →
      (download_file (FetchResult.ok hdr events) env p).ops
        = FsOp.createDirAll (dirArgOf p) :: FsOp.openTruncate p
            :: (io_copy events env.writeFailIdx).writes.map FsOp.writeChunk) := by
  refine ⟨fun h1 h2 => ?_, fun h1 h2 => ?_, fun h1 h2 => ?_⟩
  · constructor <;> simp [download_file, hparse, h1, h2]
  · constructor <;> simp [download_file, hparse, h1, h2]
  · simp [download_file, hparse, h1, h2]

/-- Witness for C7 at concrete inputs: with destination `"a/b"`, a
directory-creation failure panics, an open failure panics, and a clean
run performs create-dir, open, write in that order. -/
theorem C7_dir_open_failures_witness :
    (download_file (FetchResult.ok none [ReadEvent.chunk [3]])
        ⟨true, false, none, none⟩ "a/b").outcome = RunOutcome.panicked ∧
    (download_file (FetchResult.ok none [ReadEvent.chunk [3]])
        ⟨false, true, none, none⟩ "a/b").outcome = RunOutcome.panicked ∧
    (download_file (FetchResult.ok none [ReadEvent.chunk [3]])
        ⟨false, false, none, none⟩ "a/b").ops
      = FsOp.createDirAll (dirArgOf "a/b") :: FsOp.openTruncate "a/b"
          :: (io_copy [ReadEvent.chunk [3]] none).writes.map FsOp.writeChunk := by
  have h1 := C7_dir_open_failures ⟨true, false, none, none⟩ "a/b" none
    [ReadEvent.chunk [3]] 0 rfl
  have h2 := C7_dir_open_failures ⟨false, true, none, none⟩ "a/b" none
    [ReadEvent.chunk [3]] 0 rfl
  have h3 := C7_dir_open_failures ⟨false, false, none, none⟩ "a/b" none
    [ReadEvent.chunk [3]] 0 rfl
  exact ⟨(h1.1 rfl (by decide)).1, (h2.2.1 rfl rfl).1, h3.2.2 rfl rfl⟩

/-- Claim C8: the destination is opened with truncation, so after any
run that reaches the copy step the file holds exactly the downloaded
bytes — whatever the file contained before the call (from an earlier,
possibly larger download) has no influence on the result: two runs
differing only in the prior file content behave identically. -/
theorem C8_truncate_replaces (env : FsEnv) (p : String) (hdr : Option String)
    (events : List ReadEvent) (t : Nat)
    (hparse : totalOf hdr = some t)
    (hdir : (env.createDirFails && !(dirArgOf p == "")) = false)
    (hopen : env.openFails = false) :
    ∀ prior prior' : Option (List Nat),
      (download_file (FetchResult.ok hdr events) { env with prior := prior } p).file
        = some (io_copy events env.writeFailIdx).fileBytes ∧
      download_file (FetchResult.ok hdr events) { env with prior := prior } p
        = download_file (FetchResult.ok hdr events) { env with prior := prior' } p := by
  intro prior prior'
  constructor
  · simp [download_file, hparse, hdir, hopen]
  · simp [download_file, hparse, hdir, hopen]

/-- Witness for C8 at a concrete input: downloading 2 bytes over a
5-byte prior file leaves exactly the 2 new bytes, and the run is
identical to one with no prior file. -/
theorem C8_truncate_replaces_witness :
    (download_file (FetchResult.ok none [ReadEvent.chunk [1, 2]])
        ⟨false, false, none, some [9, 9, 9, 9, 9]⟩ "a/b").file
      = some (io_copy [ReadEvent.chunk [1, 2]] none).fileBytes ∧
    download_file (FetchResult.ok none [ReadEvent.chunk [1, 2]])
        ⟨false, false, none, some [9, 9, 9, 9, 9]⟩ "a/b"
      = download_file (FetchResult.ok none [ReadEvent.chunk [1, 2]])
          ⟨false, false, none, none⟩ "a/b" := by
  have h := C8_truncate_replaces ⟨false, false, none, none⟩ "a/b" none
    [ReadEvent.chunk [1, 2]] 0 rfl rfl rfl (some [9, 9, 9, 9, 9]) none
  exact h

/-- Claim C9, counterexample: with a single 3-byte chunk whose write
fails, no chunk is ever successfully written yet the callback fires
once — the callback count does not equal the count of successfully
written chunks. -/
theorem C9_counterexample :
    (io_copy [ReadEvent.chunk [5, 6, 7]] (some 0)).callbacks.length = 1 ∧
    (io_copy [ReadEvent.chunk [5, 6, 7]] (some 0)).writes.length = 0 ∧
    ¬ ((io_copy [ReadEvent.chunk [5, 6, 7]] (some 0)).callbacks.length
        = (io_copy [ReadEvent.chunk [5, 6, 7]] (some 0)).writes.length) := by
  refine ⟨rfl, rfl, ?_⟩
  decide

/-- Claim C9 (amended): the callback fires once per successful read,
not once per successfully written chunk: on a clean transfer of
nonempty chunks it fires once per chunk with that chunk's byte count
plus one final invocation with 0 at end-of-stream; when a chunk's write
fails the callback for that chunk has already fired; and after a read
error no callback fires (the operation, being synchronous, performs no
callback after returning). -/
theorem C9_callback_per_read (cs : List (List Nat)) (h : ∀ c ∈ cs, c ≠ []) :
    (io_copy (cs.map ReadEvent.chunk) none).callbacks = cs.map List.length ++ [0] ∧
    (io_copy (cs.map ReadEvent.chunk) none).writes = cs ∧
    (io_copy (cs.map ReadEvent.chunk) none).ok = true ∧
    (∀ post : List ReadEvent,
      io_copy (ReadEvent.rerr :: post) none = io_copy [ReadEvent.rerr] none ∧
      (io_copy [ReadEvent.rerr] none).callbacks = []) := by
  refine ⟨?_, ?_, ?_, fun post => ⟨io_copy_rerr_frame [] none post [], rfl⟩⟩
  all_goals
    induction cs with
    | nil => rfl
    | cons c rest ih =>
      cases c with
      | nil => exact absurd rfl (h [] (by simp))
      | cons a l =>
        have ihh := ih (fun x hx => h x (List.mem_cons_of_mem _ hx))
        simp_all [io_copy]

/-- Witness for C9 at a concrete input: chunks `[1]` and `[2, 3]` give
callbacks `[1, 2, 0]` and writes `[[1], [2, 3]]`. -/
theorem C9_callback_per_read_witness :
    (io_copy ([[1], [2, 3]].map ReadEvent.chunk) none).callbacks
      = [[1], [2, 3]].map List.length ++ [0] ∧
    (io_copy ([[1], [2, 3]].map ReadEvent.chunk) none).writes = [[1], [2, 3]] := by
  have h := C9_callback_per_read [[1], [2, 3]] (by decide)
  exact ⟨h.1, h.2.1⟩

/-- Claim C10, counterexample: for the bare file name `"file.bin"` the
parent is `Some("")`, not a missing parent, so the argument handed to
`fs::create_dir_all` is the empty path — the claimed substitution by
`"."` does not happen (it applies only when `Path::parent` is `None`,
i.e. for `""` or `"/"`). -/
theorem C10_counterexample :
    rustParent "file.bin" = some "" ∧
    dirArgOf "file.bin" ≠ "." ∧
    dirArgOf "" = "." := by
  exact ⟨rfl, by decide, rfl⟩

/-- Claim C10 (amended): for a genuinely bare file name — nonempty,
containing neither of the Windows separators `\` and `/`, and not
starting with a disk prefix such as `C:` — the parent is the empty
path, on which `fs::create_dir_all` succeeds as a no-op, so the
directory-creation step can never fail or panic — the run is identical
whether or not directory creation would fail — and the download
proceeds to create the file under the bare (current-directory-relative)
name.  A path such as `"a\b"` or `"C:f"` is not bare: it has a
non-empty real parent (`"a"`, `"C:"`) whose creation can fail. -/
theorem C10_bare_filename (p : String) (hne : p.data ≠ [])
    (hnosep : p.data.all (fun c => !isSep c) = true)
    (hnodrive : splitDrive p.data = none)
    (fetch : FetchResult) (env : FsEnv) :
    dirArgOf p = "" ∧
    download_file fetch { env with createDirFails := true } p
      = download_file fetch { env with createDirFails := false } p := by
  have hall : ∀ c ∈ p.data, isSep c = false := by
    intro c hc
    have h := List.all_eq_true.mp hnosep c hc
    simpa using h
  have hany : p.data.any isSep = false := by
    rw [List.any_eq_false]
    intro c hc
    simp [hall c hc]
  have hhead : isSep (p.data.head?.getD ' ') = false := by
    cases hpd : p.data with
    | nil => exact absurd hpd hne
    | cons c l => simpa using hall c (by rw [hpd]; exact List.mem_cons_self c l)
  have hd : dirArgOf p = "" := by
    simp [dirArgOf, rustParent, hnodrive, rustParentAux, hne, hany, hhead]
  refine ⟨hd, ?_⟩
  cases fetch with
  | status c => rfl
  | transport => rfl
  | ok hdr events =>
    cases htp : totalOf hdr with
    | none => simp [download_file, htp]
    | some t => simp [download_file, htp, hd]

/-- Witness for C10 at a concrete input: destination `"file.bin"` has
directory argument `""` and the run does not depend on whether
directory creation would fail. -/
theorem C10_bare_filename_witness :
    dirArgOf "file.bin" = "" ∧
    download_file (FetchResult.ok none [ReadEvent.chunk [5]])
        ⟨true, false, none, none⟩ "file.bin"
      = download_file (FetchResult.ok none [ReadEvent.chunk [5]])
          ⟨false, false, none, none⟩ "file.bin" := by
  have h := C10_bare_filename "file.bin" (by decide) (by decide) (by decide)
    (FetchResult.ok none [ReadEvent.chunk [5]]) ⟨false, false, none, none⟩
  exact h

end NsisDownload
